import Mathlib

set_option maxRecDepth 200000
set_option linter.unusedVariables false

/-!
Verification development for the shinkai-node message-envelope core.

The repository ships the pyo3 test-suite `test_shinkai_message_pyo3.py`
pinning the observable behaviour of the message builders, the inbox-name
derivation, the content-schema payload serialization, the key-derivation
used by the registration payload, and the LLM-provider interface.  The Rust
implementation behind the bindings is not part of the source tree, so the
definitions below are modelled from the specification, with every
behavioural choice pinned to the expected values asserted by the test
suite.  Cryptographic key derivation (x25519 and ed25519 public keys from
secret keys) is implemented in full so the registration payload can be
evaluated bit-for-bit against the test vectors.
-/

/-! ## Hex and byte helpers -/

/-- Value of a single hexadecimal digit character (lower or upper case). -/
def hexVal (c : Char) : Nat :=
  if 97 ≤ c.toNat then c.toNat - 87
  else if 65 ≤ c.toNat then c.toNat - 55
  else c.toNat - 48

/-- Decode a hex string (as a character list) into a list of byte values. -/
def hexToBytes : List Char → List Nat
  | c1 :: c2 :: rest => (16 * hexVal c1 + hexVal c2) :: hexToBytes rest
  | _ => []

/-- Interpret a byte list as a little-endian natural number. -/
def bytesToNatLE : List Nat → Nat
  | [] => 0
  | b :: rest => b + 256 * bytesToNatLE rest

/-- Encode a natural number as a little-endian byte list of the given width. -/
def natToBytesLE : Nat → Nat → List Nat
  | 0, _ => []
  | n + 1, x => (x % 256) :: natToBytesLE n (x / 256)

/-- Lower-case hexadecimal digit for a value below 16. -/
def hexDigit (n : Nat) : Char :=
  if n < 10 then Char.ofNat (48 + n) else Char.ofNat (87 + n)

/-- Two lower-case hex digits for one byte. -/
def byteToHex (b : Nat) : List Char := [hexDigit (b / 16), hexDigit (b % 16)]

/-- Render a byte list as a lower-case hex string. -/
def bytesToHex (bs : List Nat) : String := String.mk (bs.flatMap byteToHex)

/-! ## Field arithmetic modulo 2^255 - 19 -/

/-- The curve25519 prime. -/
def P25519 : Nat := 2 ^ 255 - 19

/-- Field addition. -/
def fadd (a b : Nat) : Nat := (a + b) % P25519

/-- Field subtraction. -/
def fsub (a b : Nat) : Nat := (a % P25519 + (P25519 - b % P25519)) % P25519

/-- Field multiplication. -/
def fmul (a b : Nat) : Nat := a * b % P25519

/-- Square-and-multiply modular exponentiation in the field (fuel-driven). -/
def fpowAux : Nat → Nat → Nat → Nat
  | 0, _, _ => 1
  | fuel + 1, b, e =>
    if e = 0 then 1
    else
      let r := fpowAux fuel (fmul b b) (e / 2)
      if e % 2 = 1 then fmul r b else r

/-- Field inverse via Fermat's little theorem. -/
def finv (x : Nat) : Nat := fpowAux 256 x (P25519 - 2)

/-- RFC 7748 / RFC 8032 scalar clamping: clear the three lowest bits,
clear bit 255, set bit 254. -/
def clampScalar (k : Nat) : Nat :=
  (k % 2 ^ 255) / 8 * 8 % 2 ^ 254 + 2 ^ 254

/-! ## X25519 public-key derivation (RFC 7748 Montgomery ladder) -/

/-- One Montgomery-ladder step at bit index t.  State is
(previous swap bit, x2, z2, x3, z3). -/
def x25519Step (x1 k t : Nat) : Nat × Nat × Nat × Nat × Nat → Nat × Nat × Nat × Nat × Nat
  | (swap, x2, z2, x3, z3) =>
    let kt := k / 2 ^ t % 2
    let sw := (swap + kt) % 2
    let x2s := if sw = 1 then x3 else x2
    let x3s := if sw = 1 then x2 else x3
    let z2s := if sw = 1 then z3 else z2
    let z3s := if sw = 1 then z2 else z3
    let A := fadd x2s z2s
    let AA := fmul A A
    let B := fsub x2s z2s
    let BB := fmul B B
    let E := fsub AA BB
    let C := fadd x3s z3s
    let D := fsub x3s z3s
    let DA := fmul D A
    let CB := fmul C B
    let x3n := fmul (fadd DA CB) (fadd DA CB)
    let z3n := fmul x1 (fmul (fsub DA CB) (fsub DA CB))
    let x2n := fmul AA BB
    let z2n := fmul E (fadd AA (fmul 121665 E))
    (kt, x2n, z2n, x3n, z3n)

/-- Run the ladder from bit index t-1 down to 0. -/
def x25519Loop (x1 k : Nat) : Nat → Nat × Nat × Nat × Nat × Nat → Nat × Nat × Nat × Nat × Nat
  | 0, st => st
  | t + 1, st => x25519Loop x1 k t (x25519Step x1 k t st)

/-- X25519 scalar multiplication of the base point u = 9 by the clamped
scalar, returning the u-coordinate. -/
def x25519Base (k : Nat) : Nat :=
  match x25519Loop 9 k 255 (0, 1, 0, 9, 1) with
  | (swap, x2, z2, x3, z3) =>
    let xf := if swap = 1 then x3 else x2
    let zf := if swap = 1 then z3 else z2
    fmul xf (finv zf)

/-- Derive the x25519 public key (hex) from a 32-byte hex secret key,
as `EncryptionStaticKey` → public key in the source bindings. -/
def encryption_public_key_from_sk (sk_hex : String) : String :=
  bytesToHex (natToBytesLE 32 (x25519Base (clampScalar (bytesToNatLE (hexToBytes sk_hex.data)))))

/-! ## SHA-512 -/

/-- Truncate to 64 bits. -/
def w64 (x : Nat) : Nat := x % 2 ^ 64

/-- 64-bit rotate right. -/
def rotr64 (n x : Nat) : Nat := (x / 2 ^ n + x % 2 ^ n * 2 ^ (64 - n)) % 2 ^ 64

/-- 64-bit bitwise complement. -/
def not64 (x : Nat) : Nat := x ^^^ (2 ^ 64 - 1)

/-- SHA-512 Ch function. -/
def shaCh (x y z : Nat) : Nat := (x &&& y) ^^^ (not64 x &&& z)

/-- SHA-512 Maj function. -/
def shaMaj (x y z : Nat) : Nat := (x &&& y) ^^^ (x &&& z) ^^^ (y &&& z)

/-- SHA-512 big sigma 0. -/
def bigSigma0 (x : Nat) : Nat := rotr64 28 x ^^^ rotr64 34 x ^^^ rotr64 39 x

/-- SHA-512 big sigma 1. -/
def bigSigma1 (x : Nat) : Nat := rotr64 14 x ^^^ rotr64 18 x ^^^ rotr64 41 x

/-- SHA-512 small sigma 0. -/
def smallSigma0 (x : Nat) : Nat := rotr64 1 x ^^^ rotr64 8 x ^^^ x / 2 ^ 7

/-- SHA-512 small sigma 1. -/
def smallSigma1 (x : Nat) : Nat := rotr64 19 x ^^^ rotr64 61 x ^^^ x / 2 ^ 6

/-- The 80 SHA-512 round constants. -/
def sha512K : List Nat := [
  4794697086780616226, 8158064640168781261, 13096744586834688815, 16840607885511220156,
  4131703408338449720, 6480981068601479193, 10538285296894168987, 12329834152419229976,
  15566598209576043074, 1334009975649890238, 2608012711638119052, 6128411473006802146,
  8268148722764581231, 9286055187155687089, 11230858885718282805, 13951009754708518548,
  16472876342353939154, 17275323862435702243, 1135362057144423861, 2597628984639134821,
  3308224258029322869, 5365058923640841347, 6679025012923562964, 8573033837759648693,
  10970295158949994411, 12119686244451234320, 12683024718118986047, 13788192230050041572,
  14330467153632333762, 15395433587784984357, 489312712824947311, 1452737877330783856,
  2861767655752347644, 3322285676063803686, 5560940570517711597, 5996557281743188959,
  7280758554555802590, 8532644243296465576, 9350256976987008742, 10552545826968843579,
  11727347734174303076, 12113106623233404929, 14000437183269869457, 14369950271660146224,
  15101387698204529176, 15463397548674623760, 17586052441742319658, 1182934255886127544,
  1847814050463011016, 2177327727835720531, 2830643537854262169, 3796741975233480872,
  4115178125766777443, 5681478168544905931, 6601373596472566643, 7507060721942968483,
  8399075790359081724, 8693463985226723168, 9568029438360202098, 10144078919501101548,
  10430055236837252648, 11840083180663258601, 13761210420658862357, 14299343276471374635,
  14566680578165727644, 15097957966210449927, 16922976911328602910, 17689382322260857208,
  500013540394364858, 748580250866718886, 1242879168328830382, 1977374033974150939,
  2944078676154940804, 3659926193048069267, 4368137639120453308, 4836135668995329356,
  5532061633213252278, 6448918945643986474, 6902733635092675308, 7801388544844847127]

/-- SHA-512 initial hash values. -/
def sha512H0 : List Nat := [
  7640891576956012808, 13503953896175478587, 4354685564936845355, 11912009170470909681,
  5840696475078001361, 11170449401992604703, 2270897969802886507, 6620516959819538809]

/-- Group 8 bytes (big-endian) into one 64-bit word, over a whole list. -/
def bytesToWordsBE : List Nat → List Nat
  | b0 :: b1 :: b2 :: b3 :: b4 :: b5 :: b6 :: b7 :: rest =>
    (((((((b0 * 256 + b1) * 256 + b2) * 256 + b3) * 256 + b4) * 256 + b5) * 256 + b6) * 256 + b7)
      :: bytesToWordsBE rest
  | _ => []

/-- Big-endian byte expansion of one 64-bit word. -/
def wordToBytesBE (x : Nat) : List Nat :=
  [x / 2 ^ 56 % 256, x / 2 ^ 48 % 256, x / 2 ^ 40 % 256, x / 2 ^ 32 % 256,
   x / 2 ^ 24 % 256, x / 2 ^ 16 % 256, x / 2 ^ 8 % 256, x % 256]

/-- SHA-512 padding: append 0x80, zero bytes, and the 128-bit big-endian bit
length so the total length is a multiple of 128 bytes. -/
def sha512Pad (msg : List Nat) : List Nat :=
  let len := msg.length
  let zeros := (128 + 112 - (len + 1) % 128) % 128
  msg ++ 128 :: List.replicate zeros 0 ++ (natToBytesLE 16 (len * 8)).reverse

/-- Extend the 16 message-schedule words to 80 (appending one word per fuel). -/
def sha512ScheduleAux : Nat → List Nat → List Nat
  | 0, acc => acc
  | n + 1, acc =>
    let t := acc.length
    let w := w64 (smallSigma1 (acc.getD (t - 2) 0) + acc.getD (t - 7) 0 +
      smallSigma0 (acc.getD (t - 15) 0) + acc.getD (t - 16) 0)
    sha512ScheduleAux n (acc ++ [w])

/-- Working state of the SHA-512 compression function. -/
structure SHAState where
  a : Nat
  b : Nat
  c : Nat
  d : Nat
  e : Nat
  f : Nat
  g : Nat
  h : Nat

/-- One SHA-512 compression round with a pair of round constant and
schedule word. -/
def sha512Round (st : SHAState) (kw : Nat × Nat) : SHAState :=
  let T1 := w64 (st.h + bigSigma1 st.e + shaCh st.e st.f st.g + kw.1 + kw.2)
  let T2 := w64 (bigSigma0 st.a + shaMaj st.a st.b st.c)
  ⟨w64 (T1 + T2), st.a, st.b, st.c, w64 (st.d + T1), st.e, st.f, st.g⟩

/-- Compress one 128-byte block into the running hash (8 words). -/
def sha512Block (hsh : List Nat) (block : List Nat) : List Nat :=
  let ws := sha512ScheduleAux 64 (bytesToWordsBE block)
  let st0 : SHAState := ⟨hsh.getD 0 0, hsh.getD 1 0, hsh.getD 2 0, hsh.getD 3 0,
    hsh.getD 4 0, hsh.getD 5 0, hsh.getD 6 0, hsh.getD 7 0⟩
  let st := (sha512K.zip ws).foldl sha512Round st0
  [w64 (hsh.getD 0 0 + st.a), w64 (hsh.getD 1 0 + st.b), w64 (hsh.getD 2 0 + st.c),
   w64 (hsh.getD 3 0 + st.d), w64 (hsh.getD 4 0 + st.e), w64 (hsh.getD 5 0 + st.f),
   w64 (hsh.getD 6 0 + st.g), w64 (hsh.getD 7 0 + st.h)]

/-- Split a byte list into 128-byte chunks (fuel-driven). -/
def chunks128 : Nat → List Nat → List (List Nat)
  | 0, _ => []
  | _, [] => []
  | fuel + 1, l => l.take 128 :: chunks128 fuel (l.drop 128)

/-- SHA-512 digest (64 bytes) of a byte list. -/
def sha512 (msg : List Nat) : List Nat :=
  let padded := sha512Pad msg
  let final := (chunks128 padded.length padded).foldl sha512Block sha512H0
  final.flatMap wordToBytesBE

/-! ## Ed25519 public-key derivation (RFC 8032) -/

/-- The edwards25519 curve constant d. -/
def edD : Nat := 37095705934669439343138083508754565189542113879843219016388785533085940283555

/-- Base-point x coordinate. -/
def edBx : Nat := 15112221349535400772501151409588531511454012693041857206046113283949847762202

/-- Base-point y coordinate. -/
def edBy : Nat := 46316835694926478169428394003475163141307993866256225615783033603165251855960

/-- Complete twisted-Edwards addition in extended homogeneous coordinates
(X : Y : Z : T). -/
def edAdd : Nat × Nat × Nat × Nat → Nat × Nat × Nat × Nat → Nat × Nat × Nat × Nat
  | (x1, y1, z1, t1), (x2, y2, z2, t2) =>
    let A := fmul (fsub y1 x1) (fsub y2 x2)
    let B := fmul (fadd y1 x1) (fadd y2 x2)
    let C := fmul (fmul 2 edD) (fmul t1 t2)
    let D := fmul 2 (fmul z1 z2)
    let E := fsub B A
    let F := fsub D C
    let G := fadd D C
    let H := fadd B A
    (fmul E F, fmul G H, fmul F G, fmul E H)

/-- Double-and-add scalar multiplication (fuel-driven). -/
def edSmulAux : Nat → Nat → Nat × Nat × Nat × Nat → Nat × Nat × Nat × Nat → Nat × Nat × Nat × Nat
  | 0, _, _, acc => acc
  | fuel + 1, s, P, acc =>
    if s = 0 then acc
    else
      let acc2 := if s % 2 = 1 then edAdd acc P else acc
      edSmulAux fuel (s / 2) (edAdd P P) acc2

/-- Scalar multiple of the edwards25519 base point. -/
def edBase (s : Nat) : Nat × Nat × Nat × Nat :=
  edSmulAux 256 s (edBx, edBy, 1, fmul edBx edBy) (0, 1, 1, 0)

/-- Derive the ed25519 public key (hex) from a 32-byte hex seed, as
`SignatureStaticKey` → public key in the source bindings: hash the seed
with SHA-512, clamp the low half as the scalar, multiply the base point,
and encode y with the sign bit of x. -/
def signature_public_key_from_sk (sk_hex : String) : String :=
  let h := sha512 (hexToBytes sk_hex.data)
  let s := clampScalar (bytesToNatLE (h.take 32))
  match edBase s with
  | (X, Y, Z, _) =>
    let zi := finv Z
    let x := fmul X zi
    let y := fmul Y zi
    bytesToHex (natToBytesLE 32 (y + x % 2 * 2 ^ 255))

/-! ## JSON string rendering for payloads -/

/-- Escape one character the way serde_json renders JSON strings. -/
def escapeChar (c : Char) : List Char :=
  if c = '\"' then ['\\', '\"']
  else if c = '\\' then ['\\', '\\']
  else if c = Char.ofNat 10 then ['\\', 'n']
  else if c = Char.ofNat 13 then ['\\', 'r']
  else if c = Char.ofNat 9 then ['\\', 't']
  else if c = Char.ofNat 8 then ['\\', 'b']
  else if c = Char.ofNat 12 then ['\\', 'f']
  else if c.toNat < 32 then '\\' :: 'u' :: '0' :: '0' :: byteToHex c.toNat
  else [c]

/-- JSON-escape the contents of a string. -/
def jsonEscape (s : String) : String := String.mk (s.data.flatMap escapeChar)

/-- Render a JSON string literal. -/
def jstr (s : String) : String := "\"" ++ jsonEscape s ++ "\""

/-- Render an optional string as a JSON string or null. -/
def jopt : Option String → String
  | Option.none => "null"
  | Option.some s => jstr s

/-! ## Structural JSON values (the parsed form of the serialized envelope) -/

/-- Structural JSON value: enough to express the serialized envelope shape
of §6 of the spec, where every leaf is a string. -/
inductive JVal where
  | str : String → JVal
  | obj : List (String × JVal) → JVal

/-- Extract a string leaf. -/
def JVal.asStr : JVal → Option String
  | .str s => Option.some s
  | _ => Option.none

/-- Top-level keys of a JSON object. -/
def JVal.keys : JVal → List String
  | .obj kvs => kvs.map Prod.fst
  | _ => []

/-- Look up a field of a JSON object. -/
def JVal.getField : JVal → String → Option JVal
  | .obj kvs, k => (kvs.find? (fun kv => kv.fst == k)).map Prod.snd
  | _, _ => Option.none

/-! ## Message data model (spec §3 and §6) -/

/-- Modelled from the spec: the two encryption modes of §4.2.  The
serialized name of the encrypted mode is pinned by the test suite
(`test_get_last_unread_messages_from_inbox` and five further tests assert
the literal "DiffieHellmanChaChaPoly1305"), which is the name the spec
abstracts as `EncryptedExchange`. -/
inductive EncryptionMethod where
  | None
  | DiffieHellmanChaChaPoly1305
deriving DecidableEq

/-- Serialized name of an encryption mode. -/
def EncryptionMethod.toStr : EncryptionMethod → String
  | .None => "None"
  | .DiffieHellmanChaChaPoly1305 => "DiffieHellmanChaChaPoly1305"

/-- Modelled from the spec: the closed registry of content-schema tags
(§4.4), restricted to the tags exercised by the builders under test. -/
inductive MessageSchemaType where
  | Empty
  | UseRegistrationCode
  | JobCreationSchema
  | JobMessageSchema
  | APIGetMessagesFromInboxRequest
  | APIAddAgentRequest
  | SymmetricKeyExchange
  | TextContent
  | VecFsCopyItem
deriving DecidableEq

/-- Serialized name of a content-schema tag. -/
def MessageSchemaType.toStr : MessageSchemaType → String
  | .Empty => "Empty"
  | .UseRegistrationCode => "UseRegistrationCode"
  | .JobCreationSchema => "JobCreationSchema"
  | .JobMessageSchema => "JobMessageSchema"
  | .APIGetMessagesFromInboxRequest => "APIGetMessagesFromInboxRequest"
  | .APIAddAgentRequest => "APIAddAgentRequest"
  | .SymmetricKeyExchange => "SymmetricKeyExchange"
  | .TextContent => "TextContent"
  | .VecFsCopyItem => "VecFsCopyItem"

/-- Raw content plus schema tag (the `message_data.unencrypted` record). -/
structure ShinkaiData where
  message_raw_content : String
  message_content_schema : MessageSchemaType
deriving DecidableEq

/-- Message data: clear or encrypted (inner level of the body union). -/
inductive MessageData where
  | unencrypted : ShinkaiData → MessageData
  | encrypted : String → MessageData
deriving DecidableEq

/-- Internal metadata: sub-identities, inbox, body-level encryption (§3). -/
structure InternalMetadata where
  sender_subidentity : String
  recipient_subidentity : String
  inbox : String
  encryption : EncryptionMethod
deriving DecidableEq

/-- The unencrypted body: message data together with internal metadata. -/
structure ShinkaiBody where
  message_data : MessageData
  internal_metadata : InternalMetadata
deriving DecidableEq

/-- Message body: clear body, or an opaque ciphertext produced by
encrypting a serialized `ShinkaiBody` (§4.3). -/
inductive MessageBody where
  | unencrypted : ShinkaiBody → MessageBody
  | encrypted : String → MessageBody
deriving DecidableEq

/-- External metadata: routing-visible addressing fields (§3). -/
structure ExternalMetadata where
  sender : String
  recipient : String
  scheduled_time : String
  other : String
  intra_sender : String
deriving DecidableEq

/-- The complete envelope of §3/§6. -/
structure ShinkaiMessage where
  body : MessageBody
  external_metadata : ExternalMetadata
  encryption : EncryptionMethod
  version : String
  signature : String
deriving DecidableEq

/-! ## Serialization of the envelope to structural JSON (spec §6) -/

/-- Serialize the raw-content record. -/
def ShinkaiData.toJVal (d : ShinkaiData) : JVal :=
  .obj [("message_raw_content", .str d.message_raw_content),
        ("message_content_schema", .str d.message_content_schema.toStr)]

/-- Serialize message data as a one-key tagged union. -/
def MessageData.toJVal : MessageData → JVal
  | .unencrypted d => .obj [("unencrypted", d.toJVal)]
  | .encrypted c => .obj [("encrypted", .str c)]

/-- Serialize internal metadata. -/
def InternalMetadata.toJVal (im : InternalMetadata) : JVal :=
  .obj [("sender_subidentity", .str im.sender_subidentity),
        ("recipient_subidentity", .str im.recipient_subidentity),
        ("inbox", .str im.inbox),
        ("encryption", .str im.encryption.toStr)]

/-- Serialize the unencrypted body record. -/
def ShinkaiBody.toJVal (b : ShinkaiBody) : JVal :=
  .obj [("message_data", b.message_data.toJVal),
        ("internal_metadata", b.internal_metadata.toJVal)]

/-- Serialize the body as a one-key tagged union: an `unencrypted` or an
`encrypted` key, never both. -/
def MessageBody.toJVal : MessageBody → JVal
  | .unencrypted b => .obj [("unencrypted", b.toJVal)]
  | .encrypted c => .obj [("encrypted", .str c)]

/-- Serialize external metadata. -/
def ExternalMetadata.toJVal (em : ExternalMetadata) : JVal :=
  .obj [("sender", .str em.sender),
        ("recipient", .str em.recipient),
        ("scheduled_time", .str em.scheduled_time),
        ("other", .str em.other),
        ("intra_sender", .str em.intra_sender)]

/-- Serialize the whole envelope. -/
def ShinkaiMessage.toJVal (m : ShinkaiMessage) : JVal :=
  .obj [("body", m.body.toJVal),
        ("external_metadata", m.external_metadata.toJVal),
        ("encryption", .str m.encryption.toStr),
        ("version", .str m.version),
        ("signature", .str m.signature)]

/-- The string stored in the serialized top-level `encryption` field. -/
def serializedEncryption (m : ShinkaiMessage) : Option String :=
  (m.toJVal.getField "encryption").bind JVal.asStr

/-- The keys of the serialized `body` object. -/
def serializedBodyKeys (m : ShinkaiMessage) : List String :=
  ((m.toJVal.getField "body").map JVal.keys).getD []

/-! ## Inbox names (spec §4.1) -/

/-- Lowercase rendering of a boolean, as in the inbox-name grammar. -/
def boolStr : Bool → String
  | true => "true"
  | false => "false"

/-- Byte-lexicographic order on character lists, as Rust string sorting. -/
def strLeAux : List Char → List Char → Bool
  | [], _ => true
  | _ :: _, [] => false
  | a :: as, b :: bs =>
    if a.toNat < b.toNat then true
    else if b.toNat < a.toNat then false
    else strLeAux as bs

/-- Byte-lexicographic order on strings. -/
def strLe (a b : String) : Bool := strLeAux a.data b.data

/-- Full identity string: node plus optional sub-identity path. -/
def fullIdentity (node sub : String) : String :=
  if sub = "" then node else node ++ "/" ++ sub

/-- Modelled from the spec: the direct inbox-name derivation of §4.1 (the
Rust `InboxName::get_regular_inbox_name_from_params` is not in the source
tree).  The spec prose claims a fixed receiver-then-sender order, but the
expected value pinned by `test_job_creation` (sender sub-identity `main`,
recipient sub-identity `main/agent/agent_1`, inbox
`inbox::@@node1.shinkai/main::@@node1.shinkai/main/agent/agent_1::false`)
is only consistent with joining the two full identities in ascending
lexicographic order (a sorted pair); the model follows the tests. -/
def get_regular_inbox_name_from_params
    (sender sender_subidentity recipient recipient_subidentity : String)
    (is_e2e : Bool) : String :=
  let sender_full := fullIdentity sender sender_subidentity
  let recipient_full := fullIdentity recipient recipient_subidentity
  let low := if strLe sender_full recipient_full then sender_full else recipient_full
  let high := if strLe sender_full recipient_full then recipient_full else sender_full
  "inbox::" ++ low ++ "::" ++ high ++ "::" ++ boolStr is_e2e

/-- Modelled from the spec: the job-scoped inbox-name derivation of §4.1
(the Rust `InboxName::get_job_inbox_name_from_params` is not in the source
tree); pinned by `test_job_message` (inbox `job_inbox::job1::false`). -/
def get_job_inbox_name_from_params (unique_id : String) (is_e2e : Bool) : String :=
  "job_inbox::" ++ unique_id ++ "::" ++ boolStr is_e2e

/-! ## Schema payloads (spec §4.4, §6) -/

/-- The UseRegistrationCode payload record (spec §4.4). -/
structure RegistrationCode where
  code : String
  registration_name : String
  device_identity_pk : String
  device_encryption_pk : String
  profile_identity_pk : String
  profile_encryption_pk : String
  identity_type : String
  permission_type : String
deriving DecidableEq

/-- Canonical serialization of the UseRegistrationCode payload, in the
field order pinned by `test_initial_registration_with_no_code_for_device`. -/
def RegistrationCode.to_json_str (r : RegistrationCode) : String :=
  "\x7b\"code\":" ++ jstr r.code ++
  ",\"registration_name\":" ++ jstr r.registration_name ++
  ",\"device_identity_pk\":" ++ jstr r.device_identity_pk ++
  ",\"device_encryption_pk\":" ++ jstr r.device_encryption_pk ++
  ",\"profile_identity_pk\":" ++ jstr r.profile_identity_pk ++
  ",\"profile_encryption_pk\":" ++ jstr r.profile_encryption_pk ++
  ",\"identity_type\":" ++ jstr r.identity_type ++
  ",\"permission_type\":" ++ jstr r.permission_type ++ "\x7d"

/-- The JobMessageSchema payload record (spec §4.4). -/
structure JobMessage where
  job_id : String
  content : String
  files_inbox : String
  parent : String
  workflow_code : Option String
  workflow_name : Option String
  sheet_job_data : Option String
  callback : Option String
deriving DecidableEq

/-- Canonical serialization of the JobMessageSchema payload, in the field
order pinned by `test_job_message`; absent optional fields render as null. -/
def JobMessage.to_json_str (m : JobMessage) : String :=
  "\x7b\"job_id\":" ++ jstr m.job_id ++
  ",\"content\":" ++ jstr m.content ++
  ",\"files_inbox\":" ++ jstr m.files_inbox ++
  ",\"parent\":" ++ jstr m.parent ++
  ",\"workflow_code\":" ++ jopt m.workflow_code ++
  ",\"workflow_name\":" ++ jopt m.workflow_name ++
  ",\"sheet_job_data\":" ++ jopt m.sheet_job_data ++
  ",\"callback\":" ++ jopt m.callback ++ "\x7d"

/-! ## Message builders (spec §4.3)

Modelled from the spec: the Rust `ShinkaiMessageBuilder` behind the pyo3
bindings is not in the source tree; the assembly pipeline follows §4.3 and
§9 (one generic envelope-assembly function parameterized by payload,
inbox, and encryption mode), with every observable field pinned to the
expected values asserted in `test_shinkai_message_pyo3.py`.  Signing is a
collaborator step the claims never touch; the detached signature is
modelled as the empty string.  The AEAD step of §4.2 uses a fresh random
nonce per message, so the encrypted builders take the encryption of the
plaintext body as an explicit function argument `enc`. -/

/-- Assemble an envelope in mode None: the internal metadata sits beside
the clear message data, both visible (spec §4.3). -/
def buildUnencryptedMessage (raw : String) (schema : MessageSchemaType)
    (sender_subidentity recipient_subidentity inbox sender recipient other
     scheduled_time : String) : ShinkaiMessage :=
  ⟨.unencrypted ⟨.unencrypted ⟨raw, schema⟩,
      ⟨sender_subidentity, recipient_subidentity, inbox, .None⟩⟩,
   ⟨sender, recipient, scheduled_time, other, sender_subidentity⟩,
   .None, "V1_0", ""⟩

/-- Assemble an envelope in the encrypted mode: the whole plaintext body,
internal metadata included, is handed to the cipher and only the opaque
ciphertext is stored (spec §4.3). -/
def buildEncryptedMessage (enc : ShinkaiBody → String) (raw : String)
    (schema : MessageSchemaType)
    (sender_subidentity recipient_subidentity inbox sender recipient other
     scheduled_time : String) : ShinkaiMessage :=
  ⟨.encrypted (enc ⟨.unencrypted ⟨raw, schema⟩,
      ⟨sender_subidentity, recipient_subidentity, inbox, .None⟩⟩),
   ⟨sender, recipient, scheduled_time, other, sender_subidentity⟩,
   .DiffieHellmanChaChaPoly1305, "V1_0", ""⟩

/-- Modelled from the spec: the acknowledgement builder (§4.3, §8); raw
content is the literal ACK with schema Empty, mode None. -/
def ack_message (my_encryption_secret_key my_signature_secret_key
    receiver_public_key sender receiver scheduled_time : String) : ShinkaiMessage :=
  buildUnencryptedMessage "ACK" .Empty "" ""
    (get_regular_inbox_name_from_params sender "" receiver "" false)
    sender receiver "" scheduled_time

/-- Modelled from the spec: registration without a code (§4.3, §4.4); the
payload carries the public keys derived from the supplied device and
profile secret keys, with identity type device and permission admin, and
the envelope mode is None. -/
def initial_registration_with_no_code_for_device
    (my_device_encryption_sk my_device_signature_sk profile_encryption_sk
     profile_signature_sk registration_name sender sender_subidentity receiver
     scheduled_time : String) : ShinkaiMessage :=
  let payload : RegistrationCode :=
    ⟨"", registration_name,
     signature_public_key_from_sk my_device_signature_sk,
     encryption_public_key_from_sk my_device_encryption_sk,
     signature_public_key_from_sk profile_signature_sk,
     encryption_public_key_from_sk profile_encryption_sk,
     "device", "admin"⟩
  buildUnencryptedMessage payload.to_json_str .UseRegistrationCode
    sender_subidentity ""
    (get_regular_inbox_name_from_params sender sender_subidentity receiver "" false)
    sender receiver "" scheduled_time

/-- Modelled from the spec: the job-creation builder (§4.3); the scope is
taken as its already-serialized JSON.  The envelope mode is None, as
asserted by `test_job_creation`. -/
def job_creation (my_encryption_secret_key my_signature_secret_key
    receiver_public_key scope_json : String) (is_hidden : Bool)
    (sender sender_subidentity receiver receiver_subidentity
     scheduled_time : String) : ShinkaiMessage :=
  let raw := "\x7b\"scope\":" ++ scope_json ++ ",\"is_hidden\":" ++ boolStr is_hidden ++ "\x7d"
  buildUnencryptedMessage raw .JobCreationSchema
    sender_subidentity receiver_subidentity
    (get_regular_inbox_name_from_params sender sender_subidentity receiver receiver_subidentity false)
    sender receiver "" scheduled_time

/-- Modelled from the spec: the job-message builder (§4.3, §4.4); the
payload is the JobMessageSchema record, the inbox is job-scoped, and the
envelope mode is None, as asserted by `test_job_message`. -/
def job_message (job_id content files_inbox parent
    my_encryption_secret_key my_signature_secret_key receiver_public_key
    sender sender_subidentity receiver receiver_subidentity : String)
    (workflow_code workflow_name : Option String)
    (scheduled_time : String) : ShinkaiMessage :=
  let payload : JobMessage :=
    ⟨job_id, content, files_inbox, parent, workflow_code, workflow_name,
     Option.none, Option.none⟩
  buildUnencryptedMessage payload.to_json_str .JobMessageSchema
    sender_subidentity receiver_subidentity
    (get_job_inbox_name_from_params job_id false)
    sender receiver "" scheduled_time

/-- Modelled from the spec: the last-unread inbox query builder (§4.3);
an inbox query on private state, sent in the encrypted mode. -/
def get_last_unread_messages_from_inbox (enc : ShinkaiBody → String)
    (my_encryption_secret_key my_signature_secret_key receiver_public_key
     inbox : String) (count : Nat)
    (sender sender_subidentity receiver receiver_subidentity : String)
    (offset : Option String) (scheduled_time : String) : ShinkaiMessage :=
  let raw := "\x7b\"inbox\":" ++ jstr inbox ++ ",\"count\":" ++ Nat.repr count ++
    ",\"offset\":" ++ jopt offset ++ "\x7d"
  buildEncryptedMessage enc raw .APIGetMessagesFromInboxRequest
    sender_subidentity receiver_subidentity inbox sender receiver "" scheduled_time

/-- Modelled from the spec: the last-messages inbox query builder (§4.3);
an inbox query on private state, sent in the encrypted mode. -/
def get_last_messages_from_inbox (enc : ShinkaiBody → String)
    (my_encryption_secret_key my_signature_secret_key receiver_public_key
     inbox : String) (count : Nat)
    (sender sender_subidentity receiver receiver_subidentity : String)
    (offset : Option String) (scheduled_time : String) : ShinkaiMessage :=
  let raw := "\x7b\"inbox\":" ++ jstr inbox ++ ",\"count\":" ++ Nat.repr count ++
    ",\"offset\":" ++ jopt offset ++ "\x7d"
  buildEncryptedMessage enc raw .APIGetMessagesFromInboxRequest
    sender_subidentity receiver_subidentity inbox sender receiver "" scheduled_time

/-- Modelled from the spec: the provider-registration request builder
(§4.3); acts on private state, sent in the encrypted mode. -/
def request_add_agent (enc : ShinkaiBody → String)
    (my_encryption_secret_key my_signature_secret_key receiver_public_key
     agent_json sender sender_subidentity receiver receiver_subidentity
     scheduled_time : String) : ShinkaiMessage :=
  buildEncryptedMessage enc agent_json .APIAddAgentRequest
    sender_subidentity receiver_subidentity
    (get_regular_inbox_name_from_params sender sender_subidentity receiver receiver_subidentity false)
    sender receiver "" scheduled_time

/-- Modelled from the spec: the shared file-transfer inbox builder (§4.2
symmetric-key variant, §4.3); sent in the encrypted mode. -/
def create_files_inbox_with_sym_key (enc : ShinkaiBody → String)
    (my_encryption_secret_key my_signature_secret_key receiver_public_key
     inbox symmetric_key_sk sender_subidentity sender receiver
     scheduled_time : String) : ShinkaiMessage :=
  buildEncryptedMessage enc symmetric_key_sk .SymmetricKeyExchange
    sender_subidentity "" inbox sender receiver "" scheduled_time

/-- Modelled from the spec: the all-inboxes-for-profile query builder
(§4.3); an inbox query on private state, sent in the encrypted mode. -/
def get_all_inboxes_for_profile (enc : ShinkaiBody → String)
    (my_encryption_secret_key my_signature_secret_key receiver_public_key
     full_profile sender sender_subidentity receiver
     scheduled_time : String) : ShinkaiMessage :=
  buildEncryptedMessage enc full_profile .TextContent
    sender_subidentity ""
    (get_regular_inbox_name_from_params sender sender_subidentity receiver "" false)
    sender receiver "" scheduled_time

/-- Modelled from the spec: the generic custom-payload builder (§4.3,
§4.4 Custom); caller-supplied payload and schema, sent in the encrypted
mode, with the free-form other field passed through. -/
def create_custom_shinkai_message_to_node (enc : ShinkaiBody → String)
    (my_encryption_secret_key my_signature_secret_key receiver_public_key
     data sender sender_subidentity recipient recipient_subidentity
     other : String) (schema : MessageSchemaType)
    (scheduled_time : String) : ShinkaiMessage :=
  buildEncryptedMessage enc data schema
    sender_subidentity recipient_subidentity "" sender recipient other scheduled_time

/-- Modelled from the spec: the file-system copy-item builder (§4.3);
a file-system operation on private state, sent in the encrypted mode. -/
def vecfs_copy_item (enc : ShinkaiBody → String)
    (my_encryption_secret_key my_signature_secret_key receiver_public_key
     origin_path destination_path sender sender_subidentity receiver
     receiver_subidentity scheduled_time : String) : ShinkaiMessage :=
  let raw := "\x7b\"origin_path\":" ++ jstr origin_path ++
    ",\"destination_path\":" ++ jstr destination_path ++ "\x7d"
  buildEncryptedMessage enc raw .VecFsCopyItem
    sender_subidentity receiver_subidentity
    (get_regular_inbox_name_from_params sender sender_subidentity receiver receiver_subidentity false)
    sender receiver "" scheduled_time

/-! ## LLM provider interface -/

/-- Modelled from the spec: the provider-interface variants exercised by
`TestPyLLMProviderInterface`. -/
inductive LLMProviderInterface where
  | OpenAI : String → LLMProviderInterface
  | GenericAPI : String → LLMProviderInterface
  | LocalLLM : LLMProviderInterface
deriving DecidableEq

/-- Constructor used by `PyLLMProviderInterface.new_openai`. -/
def LLMProviderInterface.new_openai (model_type : String) : LLMProviderInterface :=
  .OpenAI model_type

/-- Constructor used by `PyLLMProviderInterface.new_genericapi`. -/
def LLMProviderInterface.new_genericapi (model_type : String) : LLMProviderInterface :=
  .GenericAPI model_type

/-- Constructor used by `PyLLMProviderInterface.new_localllm`. -/
def LLMProviderInterface.new_localllm : LLMProviderInterface := .LocalLLM

/-- Strip a literal character-list front portion, or fail. -/
def stripFrontChars : List Char → List Char → Option (List Char)
  | [], rest => Option.some rest
  | _ :: _, [] => Option.none
  | p :: ps, c :: cs => if p = c then stripFrontChars ps cs else Option.none

/-- Whether a string starts with the given literal front portion. -/
def startsWithStr (p s : String) : Bool := (stripFrontChars p.data s.data).isSome

/-- Modelled from the spec: parsing a model string into a provider
interface, as `PyLLMProviderInterface(s)`: a recognized provider front
marker selects that provider with the remainder as model type; anything
else falls back to the local provider, as pinned by
`test_new_without_openai_prefix`. -/
def LLMProviderInterface.fromStr (s : String) : LLMProviderInterface :=
  match stripFrontChars "openai:".data s.data with
  | Option.some rest => .OpenAI (String.mk rest)
  | Option.none =>
    match stripFrontChars "genericapi:".data s.data with
    | Option.some rest => .GenericAPI (String.mk rest)
    | Option.none => .LocalLLM

/-- The model string reported by `get_model()`. -/
def LLMProviderInterface.get_model : LLMProviderInterface → String
  | .OpenAI m => "openai:" ++ m
  | .GenericAPI m => "genericapi:" ++ m
  | .LocalLLM => "LocalLLM"

/-- Internal metadata of an envelope, when the body is unencrypted. -/
def ShinkaiMessage.internal_metadata (m : ShinkaiMessage) : Option InternalMetadata :=
  match m.body with
  | .unencrypted b => Option.some b.internal_metadata
  | .encrypted _ => Option.none

/-- Direct inbox name exactly as the spec words it: receiver identity
listed before sender identity, in that fixed order.  Stated for comparison
with the source-modelled derivation. -/
def compute_inbox_name_spec_order (receiver sender : String) (is_e2e : Bool) : String :=
  "inbox::" ++ receiver ++ "::" ++ sender ++ "::" ++ boolStr is_e2e

/-- C3 counterexample: with full sender identity `@@node1.shinkai/main` and
full receiver identity `@@node1.shinkai/main/agent/agent_1` (the
`test_job_creation` instance), the computed inbox name lists the sender
identity first, not the receiver, so it differs from the receiver-first
formula the claim states. -/
theorem inbox_name_receiver_first_counterexample :
    get_regular_inbox_name_from_params
        "@@node1.shinkai" "main" "@@node1.shinkai" "main/agent/agent_1" false
      = "inbox::@@node1.shinkai/main::@@node1.shinkai/main/agent/agent_1::false"
    ∧ get_regular_inbox_name_from_params
        "@@node1.shinkai" "main" "@@node1.shinkai" "main/agent/agent_1" false
      ≠ compute_inbox_name_spec_order
          "@@node1.shinkai/main/agent/agent_1" "@@node1.shinkai/main" false := by
  exact ⟨by decide, by decide⟩

/-- C3 amended: the direct inbox name is deterministic and joins the two
full identities in ascending byte-lexicographic order (sorted pair), not
receiver-first; on the acknowledgement test pair this coincides with
receiver-first, and on the job-creation test pair it does not. -/
theorem inbox_name_sorted_order :
    (∀ (sender sender_sub receiver receiver_sub : String) (b : Bool),
      get_regular_inbox_name_from_params sender sender_sub receiver receiver_sub b
        = (if strLe (fullIdentity sender sender_sub) (fullIdentity receiver receiver_sub)
           then "inbox::" ++ fullIdentity sender sender_sub ++ "::" ++
             fullIdentity receiver receiver_sub ++ "::" ++ boolStr b
           else "inbox::" ++ fullIdentity receiver receiver_sub ++ "::" ++
             fullIdentity sender sender_sub ++ "::" ++ boolStr b))
    ∧ get_regular_inbox_name_from_params "@@sender.shinkai" "" "@@receiver.shinkai" "" false
        = "inbox::@@receiver.shinkai::@@sender.shinkai::false"
    ∧ get_regular_inbox_name_from_params
        "@@node1.shinkai" "main" "@@node1.shinkai" "main/agent/agent_1" false
        = "inbox::@@node1.shinkai/main::@@node1.shinkai/main/agent/agent_1::false" := by
  refine ⟨?_, by decide, by decide⟩
  intro s ss r rs b
  cases hsw : strLe (fullIdentity s ss) (fullIdentity r rs) <;>
    simp [get_regular_inbox_name_from_params, hsw]

/-- C5: the job-scoped inbox name is the concatenation
job_inbox::job-id::flag with the flag rendered as lowercase true/false,
and the job-message builder stores exactly that name (test instance:
job_inbox::job1::false). -/
theorem job_inbox_name_concatenation :
    (∀ (j : String) (b : Bool),
      get_job_inbox_name_from_params j b = "job_inbox::" ++ j ++ "::" ++ boolStr b)
    ∧ boolStr true = "true" ∧ boolStr false = "false"
    ∧ (∀ esk ssk rpk t : String,
      (job_message "job1" "Job content" "" "" esk ssk rpk
          "@@node1.shinkai" "" "@@node1.shinkai" "main/agent/agent_1"
          Option.none Option.none t).internal_metadata
        = Option.some ⟨"", "main/agent/agent_1", "job_inbox::job1::false",
            EncryptionMethod.None⟩) := by
  exact ⟨fun j b => rfl, rfl, rfl, fun esk ssk rpk t => rfl⟩

/-- C1 counterexample: at the inputs of `test_job_creation` and
`test_job_message`, the job-creation and job-message builders produce
envelopes whose encryption mode is None, not the encrypted-exchange mode
the claim asserts. -/
theorem job_builders_unencrypted_counterexample :
    (job_creation
        "7008829b80ae4350cf049e48d8bce4714e216b674fff0bf34f97f7b98d928d3f"
        "b6baf0fa268f993c57223d5db96e5e1de776fcb0195ee6137f33de9d8d9dd749"
        "7008829b80ae4350cf049e48d8bce4714e216b674fff0bf34f97f7b98d928d3f"
        "\x7b\"local\":[],\"vector_fs_items\":[],\"vector_fs_folders\":[],\"network_folders\":[]\x7d"
        false "@@node1.shinkai" "main" "@@node1.shinkai" "main/agent/agent_1" "").encryption
      = EncryptionMethod.None
    ∧ (job_message "job1" "Job content" "" ""
        "7008829b80ae4350cf049e48d8bce4714e216b674fff0bf34f97f7b98d928d3f"
        "b6baf0fa268f993c57223d5db96e5e1de776fcb0195ee6137f33de9d8d9dd749"
        "7008829b80ae4350cf049e48d8bce4714e216b674fff0bf34f97f7b98d928d3f"
        "@@node1.shinkai" "" "@@node1.shinkai" "main/agent/agent_1"
        Option.none Option.none "").encryption = EncryptionMethod.None
    ∧ EncryptionMethod.None ≠ EncryptionMethod.DiffieHellmanChaChaPoly1305 := by
  exact ⟨rfl, rfl, by decide⟩

/-- C1 amended: acknowledgement, registration without a code, job creation
and job messaging all build envelopes in mode None; the encrypted
(DiffieHellmanChaChaPoly1305) mode is used by the inbox queries, provider
registration, symmetric-key file-inbox creation, file-system operations
and custom payloads. -/
theorem builder_encryption_mode_table :
    (∀ a b c d e f : String, (ack_message a b c d e f).encryption = EncryptionMethod.None)
    ∧ (∀ a b c d e f g h i : String,
        (initial_registration_with_no_code_for_device a b c d e f g h i).encryption
          = EncryptionMethod.None)
    ∧ (∀ (a b c d : String) (hb : Bool) (e f g h i : String),
        (job_creation a b c d hb e f g h i).encryption = EncryptionMethod.None)
    ∧ (∀ (a b c d e f g h i j k : String) (wc wn : Option String) (t : String),
        (job_message a b c d e f g h i j k wc wn t).encryption = EncryptionMethod.None)
    ∧ (∀ (enc : ShinkaiBody → String) (a b c d : String) (n : Nat)
        (e f g h : String) (o : Option String) (t : String),
        (get_last_unread_messages_from_inbox enc a b c d n e f g h o t).encryption
          = EncryptionMethod.DiffieHellmanChaChaPoly1305)
    ∧ (∀ (enc : ShinkaiBody → String) (a b c d : String) (n : Nat)
        (e f g h : String) (o : Option String) (t : String),
        (get_last_messages_from_inbox enc a b c d n e f g h o t).encryption
          = EncryptionMethod.DiffieHellmanChaChaPoly1305)
    ∧ (∀ (enc : ShinkaiBody → String) (a b c d e f g h i : String),
        (request_add_agent enc a b c d e f g h i).encryption
          = EncryptionMethod.DiffieHellmanChaChaPoly1305)
    ∧ (∀ (enc : ShinkaiBody → String) (a b c d e f g h i : String),
        (create_files_inbox_with_sym_key enc a b c d e f g h i).encryption
          = EncryptionMethod.DiffieHellmanChaChaPoly1305)
    ∧ (∀ (enc : ShinkaiBody → String) (a b c d e f g h : String),
        (get_all_inboxes_for_profile enc a b c d e f g h).encryption
          = EncryptionMethod.DiffieHellmanChaChaPoly1305)
    ∧ (∀ (enc : ShinkaiBody → String) (a b c d e f g h i : String)
        (sch : MessageSchemaType) (t : String),
        (create_custom_shinkai_message_to_node enc a b c d e f g h i sch t).encryption
          = EncryptionMethod.DiffieHellmanChaChaPoly1305)
    ∧ (∀ (enc : ShinkaiBody → String) (a b c d e f g h i j : String),
        (vecfs_copy_item enc a b c d e f g h i j).encryption
          = EncryptionMethod.DiffieHellmanChaChaPoly1305) := by
  exact ⟨fun a b c d e f => rfl,
    fun a b c d e f g h i => rfl,
    fun a b c d hb e f g h i => rfl,
    fun a b c d e f g h i j k wc wn t => rfl,
    fun enc a b c d n e f g h o t => rfl,
    fun enc a b c d n e f g h o t => rfl,
    fun enc a b c d e f g h i => rfl,
    fun enc a b c d e f g h i => rfl,
    fun enc a b c d e f g h => rfl,
    fun enc a b c d e f g h i sch t => rfl,
    fun enc a b c d e f g h i j => rfl⟩

/-- C2 counterexample: the serialized top-level encryption field of an
encrypted envelope (here the last-unread inbox query of
`test_get_last_unread_messages_from_inbox`) is the literal
DiffieHellmanChaChaPoly1305, which is neither of the two literals the
claim allows. -/
theorem serialized_encryption_literal_counterexample :
    serializedEncryption (get_last_unread_messages_from_inbox (fun _ => "")
        "7008829b80ae4350cf049e48d8bce4714e216b674fff0bf34f97f7b98d928d3f"
        "b6baf0fa268f993c57223d5db96e5e1de776fcb0195ee6137f33de9d8d9dd749"
        "7008829b80ae4350cf049e48d8bce4714e216b674fff0bf34f97f7b98d928d3f"
        "job_inbox::job1::false" 10 "@@node1.shinkai" "main" "@@node1.shinkai"
        "main/agent/agent_1" Option.none "")
      = Option.some "DiffieHellmanChaChaPoly1305"
    ∧ "DiffieHellmanChaChaPoly1305" ≠ "EncryptedExchange"
    ∧ "DiffieHellmanChaChaPoly1305" ≠ "None" := by
  exact ⟨rfl, by decide, by decide⟩

/-- C2 amended: every builder serializes the top-level encryption field to
one of exactly two literal values, None or DiffieHellmanChaChaPoly1305
(the latter is the wire name of the mode the spec calls
EncryptedExchange). -/
theorem serialized_encryption_field_values :
    (∀ a b c d e f : String,
      serializedEncryption (ack_message a b c d e f) = Option.some "None")
    ∧ (∀ a b c d e f g h i : String,
        serializedEncryption (initial_registration_with_no_code_for_device a b c d e f g h i)
          = Option.some "None")
    ∧ (∀ (a b c d : String) (hb : Bool) (e f g h i : String),
        serializedEncryption (job_creation a b c d hb e f g h i) = Option.some "None")
    ∧ (∀ (a b c d e f g h i j k : String) (wc wn : Option String) (t : String),
        serializedEncryption (job_message a b c d e f g h i j k wc wn t)
          = Option.some "None")
    ∧ (∀ (enc : ShinkaiBody → String) (a b c d : String) (n : Nat)
        (e f g h : String) (o : Option String) (t : String),
        serializedEncryption (get_last_unread_messages_from_inbox enc a b c d n e f g h o t)
          = Option.some "DiffieHellmanChaChaPoly1305")
    ∧ (∀ (enc : ShinkaiBody → String) (a b c d : String) (n : Nat)
        (e f g h : String) (o : Option String) (t : String),
        serializedEncryption (get_last_messages_from_inbox enc a b c d n e f g h o t)
          = Option.some "DiffieHellmanChaChaPoly1305")
    ∧ (∀ (enc : ShinkaiBody → String) (a b c d e f g h i : String),
        serializedEncryption (request_add_agent enc a b c d e f g h i)
          = Option.some "DiffieHellmanChaChaPoly1305")
    ∧ (∀ (enc : ShinkaiBody → String) (a b c d e f g h i : String),
        serializedEncryption (create_files_inbox_with_sym_key enc a b c d e f g h i)
          = Option.some "DiffieHellmanChaChaPoly1305")
    ∧ (∀ (enc : ShinkaiBody → String) (a b c d e f g h : String),
        serializedEncryption (get_all_inboxes_for_profile enc a b c d e f g h)
          = Option.some "DiffieHellmanChaChaPoly1305")
    ∧ (∀ (enc : ShinkaiBody → String) (a b c d e f g h i : String)
        (sch : MessageSchemaType) (t : String),
        serializedEncryption (create_custom_shinkai_message_to_node enc a b c d e f g h i sch t)
          = Option.some "DiffieHellmanChaChaPoly1305")
    ∧ (∀ (enc : ShinkaiBody → String) (a b c d e f g h i j : String),
        serializedEncryption (vecfs_copy_item enc a b c d e f g h i j)
          = Option.some "DiffieHellmanChaChaPoly1305") := by
  exact ⟨fun a b c d e f => rfl,
    fun a b c d e f g h i => rfl,
    fun a b c d hb e f g h i => rfl,
    fun a b c d e f g h i j k wc wn t => rfl,
    fun enc a b c d n e f g h o t => rfl,
    fun enc a b c d n e f g h o t => rfl,
    fun enc a b c d e f g h i => rfl,
    fun enc a b c d e f g h i => rfl,
    fun enc a b c d e f g h => rfl,
    fun enc a b c d e f g h i sch t => rfl,
    fun enc a b c d e f g h i j => rfl⟩

/-- C4: the acknowledgement built from @@sender.shinkai to
@@receiver.shinkai (for any key material and timestamp) has encryption
mode None, raw content exactly ACK with schema Empty, and internal inbox
inbox::@@receiver.shinkai::@@sender.shinkai::false. -/
theorem ack_message_concrete_scenario :
    ∀ esk ssk rpk t : String,
      (ack_message esk ssk rpk "@@sender.shinkai" "@@receiver.shinkai" t).encryption
        = EncryptionMethod.None
      ∧ (ack_message esk ssk rpk "@@sender.shinkai" "@@receiver.shinkai" t).body
        = MessageBody.unencrypted
            ⟨MessageData.unencrypted ⟨"ACK", MessageSchemaType.Empty⟩,
             ⟨"", "", "inbox::@@receiver.shinkai::@@sender.shinkai::false",
              EncryptionMethod.None⟩⟩ := by
  intro esk ssk rpk t
  exact ⟨rfl, rfl⟩

/-- C6: every envelope built in the encrypted mode stores only an opaque
ciphertext: the serialized body object has an encrypted key and no
unencrypted key, and the plaintext handed to the cipher is the full
ShinkaiBody carrying the sub-identities and the inbox name inside it. -/
theorem encrypted_body_opaque_with_internal_metadata :
    (∀ (enc : ShinkaiBody → String) (a b c d : String) (n : Nat)
      (e f g h : String) (o : Option String) (t : String),
      (get_last_unread_messages_from_inbox enc a b c d n e f g h o t).body
        = MessageBody.encrypted (enc ⟨MessageData.unencrypted
            ⟨"\x7b\"inbox\":" ++ jstr d ++ ",\"count\":" ++ Nat.repr n ++
             ",\"offset\":" ++ jopt o ++ "\x7d",
             MessageSchemaType.APIGetMessagesFromInboxRequest⟩,
            ⟨f, h, d, EncryptionMethod.None⟩⟩)
      ∧ "encrypted" ∈ serializedBodyKeys (get_last_unread_messages_from_inbox enc a b c d n e f g h o t)
      ∧ "unencrypted" ∉ serializedBodyKeys (get_last_unread_messages_from_inbox enc a b c d n e f g h o t))
    ∧ (∀ (enc : ShinkaiBody → String) (a b c d : String) (n : Nat)
      (e f g h : String) (o : Option String) (t : String),
      (get_last_messages_from_inbox enc a b c d n e f g h o t).body
        = MessageBody.encrypted (enc ⟨MessageData.unencrypted
            ⟨"\x7b\"inbox\":" ++ jstr d ++ ",\"count\":" ++ Nat.repr n ++
             ",\"offset\":" ++ jopt o ++ "\x7d",
             MessageSchemaType.APIGetMessagesFromInboxRequest⟩,
            ⟨f, h, d, EncryptionMethod.None⟩⟩)
      ∧ "encrypted" ∈ serializedBodyKeys (get_last_messages_from_inbox enc a b c d n e f g h o t)
      ∧ "unencrypted" ∉ serializedBodyKeys (get_last_messages_from_inbox enc a b c d n e f g h o t))
    ∧ (∀ (enc : ShinkaiBody → String) (a b c d e f g h i : String),
      (request_add_agent enc a b c d e f g h i).body
        = MessageBody.encrypted (enc ⟨MessageData.unencrypted
            ⟨d, MessageSchemaType.APIAddAgentRequest⟩,
            ⟨f, h, get_regular_inbox_name_from_params e f g h false,
             EncryptionMethod.None⟩⟩)
      ∧ "encrypted" ∈ serializedBodyKeys (request_add_agent enc a b c d e f g h i)
      ∧ "unencrypted" ∉ serializedBodyKeys (request_add_agent enc a b c d e f g h i))
    ∧ (∀ (enc : ShinkaiBody → String) (a b c d e f g h i : String),
      (create_files_inbox_with_sym_key enc a b c d e f g h i).body
        = MessageBody.encrypted (enc ⟨MessageData.unencrypted
            ⟨e, MessageSchemaType.SymmetricKeyExchange⟩,
            ⟨f, "", d, EncryptionMethod.None⟩⟩)
      ∧ "encrypted" ∈ serializedBodyKeys (create_files_inbox_with_sym_key enc a b c d e f g h i)
      ∧ "unencrypted" ∉ serializedBodyKeys (create_files_inbox_with_sym_key enc a b c d e f g h i))
    ∧ (∀ (enc : ShinkaiBody → String) (a b c d e f g h : String),
      (get_all_inboxes_for_profile enc a b c d e f g h).body
        = MessageBody.encrypted (enc ⟨MessageData.unencrypted
            ⟨d, MessageSchemaType.TextContent⟩,
            ⟨f, "", get_regular_inbox_name_from_params e f g "" false,
             EncryptionMethod.None⟩⟩)
      ∧ "encrypted" ∈ serializedBodyKeys (get_all_inboxes_for_profile enc a b c d e f g h)
      ∧ "unencrypted" ∉ serializedBodyKeys (get_all_inboxes_for_profile enc a b c d e f g h))
    ∧ (∀ (enc : ShinkaiBody → String) (a b c d e f g h i : String)
      (sch : MessageSchemaType) (t : String),
      (create_custom_shinkai_message_to_node enc a b c d e f g h i sch t).body
        = MessageBody.encrypted (enc ⟨MessageData.unencrypted ⟨d, sch⟩,
            ⟨f, h, "", EncryptionMethod.None⟩⟩)
      ∧ "encrypted" ∈ serializedBodyKeys (create_custom_shinkai_message_to_node enc a b c d e f g h i sch t)
      ∧ "unencrypted" ∉ serializedBodyKeys (create_custom_shinkai_message_to_node enc a b c d e f g h i sch t))
    ∧ (∀ (enc : ShinkaiBody → String) (a b c d e f g h i j : String),
      (vecfs_copy_item enc a b c d e f g h i j).body
        = MessageBody.encrypted (enc ⟨MessageData.unencrypted
            ⟨"\x7b\"origin_path\":" ++ jstr d ++ ",\"destination_path\":" ++ jstr e ++ "\x7d",
             MessageSchemaType.VecFsCopyItem⟩,
            ⟨g, i, get_regular_inbox_name_from_params f g h i false,
             EncryptionMethod.None⟩⟩)
      ∧ "encrypted" ∈ serializedBodyKeys (vecfs_copy_item enc a b c d e f g h i j)
      ∧ "unencrypted" ∉ serializedBodyKeys (vecfs_copy_item enc a b c d e f g h i j)) := by
  exact ⟨fun enc a b c d n e f g h o t => ⟨rfl, (by decide : "encrypted" ∈ (["encrypted"] : List String)),
      (by decide : "unencrypted" ∉ (["encrypted"] : List String))⟩,
    fun enc a b c d n e f g h o t => ⟨rfl, (by decide : "encrypted" ∈ (["encrypted"] : List String)),
      (by decide : "unencrypted" ∉ (["encrypted"] : List String))⟩,
    fun enc a b c d e f g h i => ⟨rfl, (by decide : "encrypted" ∈ (["encrypted"] : List String)),
      (by decide : "unencrypted" ∉ (["encrypted"] : List String))⟩,
    fun enc a b c d e f g h i => ⟨rfl, (by decide : "encrypted" ∈ (["encrypted"] : List String)),
      (by decide : "unencrypted" ∉ (["encrypted"] : List String))⟩,
    fun enc a b c d e f g h => ⟨rfl, (by decide : "encrypted" ∈ (["encrypted"] : List String)),
      (by decide : "unencrypted" ∉ (["encrypted"] : List String))⟩,
    fun enc a b c d e f g h i sch t => ⟨rfl, (by decide : "encrypted" ∈ (["encrypted"] : List String)),
      (by decide : "unencrypted" ∉ (["encrypted"] : List String))⟩,
    fun enc a b c d e f g h i j => ⟨rfl, (by decide : "encrypted" ∈ (["encrypted"] : List String)),
      (by decide : "unencrypted" ∉ (["encrypted"] : List String))⟩⟩

/-- Test vector pinned by the registration test: x25519 public key of the
encryption secret key used in the suite. -/
theorem encryption_pk_test_vector :
    encryption_public_key_from_sk "7008829b80ae4350cf049e48d8bce4714e216b674fff0bf34f97f7b98d928d3f"
      = "5b0d4a7f7135ebe6712a65256b9bcb2cf79ee7425407da3cbb51f07dd9d68235" := by decide

/-- Test vector pinned by the registration test: ed25519 public key of the
signature secret key used in the suite. -/
theorem signature_pk_test_vector :
    signature_public_key_from_sk "b6baf0fa268f993c57223d5db96e5e1de776fcb0195ee6137f33de9d8d9dd749"
      = "4e91b8ca811cdb07c636190e3f1bc39edcf8ac47cfd4d1c3267fec3be570e740" := by decide

/-- C7: registration without a code builds an unencrypted body whose raw
content is the UseRegistrationCode payload in the canonical field order
(code, registration_name, device_identity_pk, device_encryption_pk,
profile_identity_pk, profile_encryption_pk, identity_type,
permission_type) with schema tag UseRegistrationCode, where the identity
and encryption public keys are derived from the supplied signature and
encryption secret keys; on the test inputs the raw content is bit-for-bit
the string asserted by the test, with the derived ed25519 and x25519
public keys filled in. -/
theorem registration_payload_canonical :
    (∀ dek dsk pek psk rn s ssub r t : String,
      (initial_registration_with_no_code_for_device dek dsk pek psk rn s ssub r t).body
        = MessageBody.unencrypted
            ⟨MessageData.unencrypted
              ⟨(RegistrationCode.mk "" rn
                  (signature_public_key_from_sk dsk)
                  (encryption_public_key_from_sk dek)
                  (signature_public_key_from_sk psk)
                  (encryption_public_key_from_sk pek)
                  "device" "admin").to_json_str,
               MessageSchemaType.UseRegistrationCode⟩,
             ⟨ssub, "", get_regular_inbox_name_from_params s ssub r "" false,
              EncryptionMethod.None⟩⟩)
    ∧ (∀ r : RegistrationCode, r.to_json_str =
        "\x7b\"code\":" ++ jstr r.code ++
        ",\"registration_name\":" ++ jstr r.registration_name ++
        ",\"device_identity_pk\":" ++ jstr r.device_identity_pk ++
        ",\"device_encryption_pk\":" ++ jstr r.device_encryption_pk ++
        ",\"profile_identity_pk\":" ++ jstr r.profile_identity_pk ++
        ",\"profile_encryption_pk\":" ++ jstr r.profile_encryption_pk ++
        ",\"identity_type\":" ++ jstr r.identity_type ++
        ",\"permission_type\":" ++ jstr r.permission_type ++ "\x7d")
    ∧ (initial_registration_with_no_code_for_device
        "7008829b80ae4350cf049e48d8bce4714e216b674fff0bf34f97f7b98d928d3f"
        "b6baf0fa268f993c57223d5db96e5e1de776fcb0195ee6137f33de9d8d9dd749"
        "7008829b80ae4350cf049e48d8bce4714e216b674fff0bf34f97f7b98d928d3f"
        "b6baf0fa268f993c57223d5db96e5e1de776fcb0195ee6137f33de9d8d9dd749"
        "main_device" "@@node1.shinkai" "" "@@node1.shinkai" "").body
      = MessageBody.unencrypted
          ⟨MessageData.unencrypted
            ⟨"\x7b\"code\":\"\",\"registration_name\":\"main_device\",\"device_identity_pk\":\"4e91b8ca811cdb07c636190e3f1bc39edcf8ac47cfd4d1c3267fec3be570e740\",\"device_encryption_pk\":\"5b0d4a7f7135ebe6712a65256b9bcb2cf79ee7425407da3cbb51f07dd9d68235\",\"profile_identity_pk\":\"4e91b8ca811cdb07c636190e3f1bc39edcf8ac47cfd4d1c3267fec3be570e740\",\"profile_encryption_pk\":\"5b0d4a7f7135ebe6712a65256b9bcb2cf79ee7425407da3cbb51f07dd9d68235\",\"identity_type\":\"device\",\"permission_type\":\"admin\"\x7d",
             MessageSchemaType.UseRegistrationCode⟩,
           ⟨"", "", "inbox::@@node1.shinkai::@@node1.shinkai::false",
            EncryptionMethod.None⟩⟩ := by
  refine ⟨fun dek dsk pek psk rn s ssub r t => rfl, fun r => rfl, ?_⟩
  have hgen : (initial_registration_with_no_code_for_device
        "7008829b80ae4350cf049e48d8bce4714e216b674fff0bf34f97f7b98d928d3f"
        "b6baf0fa268f993c57223d5db96e5e1de776fcb0195ee6137f33de9d8d9dd749"
        "7008829b80ae4350cf049e48d8bce4714e216b674fff0bf34f97f7b98d928d3f"
        "b6baf0fa268f993c57223d5db96e5e1de776fcb0195ee6137f33de9d8d9dd749"
        "main_device" "@@node1.shinkai" "" "@@node1.shinkai" "").body
      = MessageBody.unencrypted
          ⟨MessageData.unencrypted
            ⟨(RegistrationCode.mk "" "main_device"
                (signature_public_key_from_sk "b6baf0fa268f993c57223d5db96e5e1de776fcb0195ee6137f33de9d8d9dd749")
                (encryption_public_key_from_sk "7008829b80ae4350cf049e48d8bce4714e216b674fff0bf34f97f7b98d928d3f")
                (signature_public_key_from_sk "b6baf0fa268f993c57223d5db96e5e1de776fcb0195ee6137f33de9d8d9dd749")
                (encryption_public_key_from_sk "7008829b80ae4350cf049e48d8bce4714e216b674fff0bf34f97f7b98d928d3f")
                "device" "admin").to_json_str,
             MessageSchemaType.UseRegistrationCode⟩,
           ⟨"", "",
            get_regular_inbox_name_from_params "@@node1.shinkai" "" "@@node1.shinkai" "" false,
            EncryptionMethod.None⟩⟩ := rfl
  rw [hgen, encryption_pk_test_vector, signature_pk_test_vector]
  decide

/-- C8: every job-message build stores, in an unencrypted body with schema
tag JobMessageSchema, the JobMessageSchema payload serialized in the
canonical field order job_id, content, files_inbox, parent, workflow_code,
workflow_name, sheet_job_data, callback, with absent optional fields
rendered as null; on the test inputs the raw content is exactly the string
asserted by the test. -/
theorem job_message_payload_canonical :
    (∀ (j c fi par a b cr s ssub r rsub : String) (wc wn : Option String) (t : String),
      (job_message j c fi par a b cr s ssub r rsub wc wn t).body
        = MessageBody.unencrypted
            ⟨MessageData.unencrypted
              ⟨(JobMessage.mk j c fi par wc wn Option.none Option.none).to_json_str,
               MessageSchemaType.JobMessageSchema⟩,
             ⟨ssub, rsub, get_job_inbox_name_from_params j false,
              EncryptionMethod.None⟩⟩)
    ∧ (∀ m : JobMessage, m.to_json_str =
        "\x7b\"job_id\":" ++ jstr m.job_id ++
        ",\"content\":" ++ jstr m.content ++
        ",\"files_inbox\":" ++ jstr m.files_inbox ++
        ",\"parent\":" ++ jstr m.parent ++
        ",\"workflow_code\":" ++ jopt m.workflow_code ++
        ",\"workflow_name\":" ++ jopt m.workflow_name ++
        ",\"sheet_job_data\":" ++ jopt m.sheet_job_data ++
        ",\"callback\":" ++ jopt m.callback ++ "\x7d")
    ∧ jopt Option.none = "null"
    ∧ (JobMessage.mk "job1" "Job content" "" ""
        Option.none Option.none Option.none Option.none).to_json_str
      = "\x7b\"job_id\":\"job1\",\"content\":\"Job content\",\"files_inbox\":\"\",\"parent\":\"\",\"workflow_code\":null,\"workflow_name\":null,\"sheet_job_data\":null,\"callback\":null\x7d" := by
  exact ⟨fun j c fi par a b cr s ssub r rsub wc wn t => rfl, fun m => rfl, rfl, by decide⟩

/-- C9: new_openai and new_genericapi report model strings with the
matching provider marker prepended, constructing from a string that
already carries a recognized marker reproduces that provider and model
unchanged, and get_model round-trips through construction for every
provider interface. -/
theorem llm_provider_model_round_trip :
    (∀ m : String, (LLMProviderInterface.new_openai m).get_model = "openai:" ++ m)
    ∧ (∀ m : String, (LLMProviderInterface.new_genericapi m).get_model = "genericapi:" ++ m)
    ∧ (∀ m : String, LLMProviderInterface.fromStr ("openai:" ++ m)
        = LLMProviderInterface.OpenAI m)
    ∧ (∀ m : String, LLMProviderInterface.fromStr ("genericapi:" ++ m)
        = LLMProviderInterface.GenericAPI m)
    ∧ (∀ i : LLMProviderInterface,
        (LLMProviderInterface.fromStr i.get_model).get_model = i.get_model) := by
  refine ⟨fun m => rfl, fun m => rfl, ?_, ?_, ?_⟩
  · intro m
    cases m with
    | mk l => rfl
  · intro m
    cases m with
    | mk l => rfl
  · intro i
    cases i with
    | OpenAI m =>
      cases m with
      | mk l => rfl
    | GenericAPI m =>
      cases m with
      | mk l => rfl
    | LocalLLM => rfl

/-- C10: constructing a provider interface from a string that starts with
neither recognized provider marker never fails and falls back to the
local provider, whose reported model is the literal LocalLLM, identical to
new_localllm. -/
theorem llm_provider_local_fallback :
    ∀ s : String,
      startsWithStr "openai:" s = false →
      startsWithStr "genericapi:" s = false →
      LLMProviderInterface.fromStr s = LLMProviderInterface.new_localllm
      ∧ (LLMProviderInterface.fromStr s).get_model
          = LLMProviderInterface.new_localllm.get_model
      ∧ LLMProviderInterface.new_localllm.get_model = "LocalLLM" := by
  intro s h1 h2
  cases hh : stripFrontChars ("openai:".data) s.data with
  | some r =>
    exfalso
    have hs : startsWithStr "openai:" s = true := by
      unfold startsWithStr
      rw [hh]
      rfl
    rw [hs] at h1
    exact Bool.noConfusion h1
  | none =>
    cases hh2 : stripFrontChars ("genericapi:".data) s.data with
    | some r =>
      exfalso
      have hs : startsWithStr "genericapi:" s = true := by
        unfold startsWithStr
        rw [hh2]
        rfl
      rw [hs] at h2
      exact Bool.noConfusion h2
    | none =>
      have hf : LLMProviderInterface.fromStr s = LLMProviderInterface.new_localllm := by
        unfold LLMProviderInterface.fromStr
        rw [hh, hh2]
        rfl
      exact ⟨hf, by rw [hf], rfl⟩

/-- C10 witness: the test input not_openai starts with neither marker and
reports LocalLLM. -/
theorem llm_provider_local_fallback_witness :
    startsWithStr "openai:" "not_openai" = false
    ∧ startsWithStr "genericapi:" "not_openai" = false
    ∧ (LLMProviderInterface.fromStr "not_openai").get_model = "LocalLLM" := by
  refine ⟨by decide, by decide, ?_⟩
  have h := llm_provider_local_fallback "not_openai" (by decide) (by decide)
  exact h.2.1.trans h.2.2
